import Mathlib

/-!
Verification development for the gateway receiver of the skyplane repository
(`skyplane/broadcast/gateway/operators/gateway_receiver.py`).

The Python source is shallowly embedded below:
* the on-wire chunk header codec (the class `WireProtocolHeader` lives in
  `skyplane/chunk.py`, which is not part of the sources at hand, so it is
  modelled from the specification text);
* the per-connection chunk receive loop `GatewayReceiver.recv_chunks`,
  including the write-retry block with its two undefined names `fpath` and
  `init_space`;
* the per-worker loop of `server_worker` inside `GatewayReceiver.start_server`;
* the worker pool operations `start_server`, `stop_server`, `stop_servers`.

Sockets are modelled as the list of bytes the peer has sent before closing the
connection; a `recv` on an exhausted stream returns 0 bytes, exactly as a
blocking `recv` on a closed TCP connection does.  Loops of the source that can
run forever are embedded with an explicit fuel parameter; the result
constructor `stuck` marks fuel exhaustion and is used to reason about
non-termination (a loop diverges iff it is `stuck` for every fuel).
-/

/-- Modelled from the spec: `skyplane.utils.definitions.MB` is not under the
sources at hand; the spec fixes the default receive block to 4 MiB, so `MB`
is two to the power twenty. -/
def MB : Nat := 1048576

/-- The fixed on-wire chunk header.  Modelled from the spec (section 3):
`chunk_id` unsigned 64-bit, `data_len` unsigned 64-bit, `is_compressed`
boolean flag, `n_chunks_left_on_socket` unsigned 32-bit; the class itself is
defined in `skyplane/chunk.py`, which is not among the sources at hand. -/
structure WireProtocolHeader where
  chunk_id : Nat
  data_len : Nat
  is_compressed : Bool
  n_chunks_left_on_socket : Nat
deriving DecidableEq, Repr

/-- Python exceptions that the embedded code can raise. -/
inductive PyErr where
  /-- `NameError`: evaluation of an undefined name (payload: the name). -/
  | nameError (nm : String)
  /-- `ShortRead` while decoding the fixed header: the stream closed before
  the full header arrived (modelled from the spec, section 4.1). -/
  | shortRead
  /-- The `assert` at lines 204-206 of `gateway_receiver.py` failing
  (payload: received size, expected size, bytes still owed). -/
  | sizeMismatch (got expected remaining : Nat)
deriving DecidableEq, Repr

/-- Big-endian bytes of a fixed-width integer field (width in bytes).
The spec only fixes that a single declared byte order is used; network
byte order is declared here. -/
def toBytesBE : Nat → Nat → List Nat
  | 0, _ => []
  | w + 1, n => toBytesBE w (n / 256) ++ [n % 256]

/-- Value of a big-endian byte string. -/
def fromBytesBE (bs : List Nat) : Nat :=
  bs.foldl (fun acc b => acc * 256 + b % 256) 0

/-- Modelled from the spec: `encode(header) -> bytes`, the exact fixed layout
of section 3 in declaration order, 8 + 8 + 1 + 4 = 21 bytes, no padding. -/
def WireProtocolHeader.encode (h : WireProtocolHeader) : List Nat :=
  toBytesBE 8 h.chunk_id ++ toBytesBE 8 h.data_len
    ++ [if h.is_compressed then 1 else 0] ++ toBytesBE 4 h.n_chunks_left_on_socket

/-- Modelled from the spec: `WireProtocolHeader.from_socket` blocks until the
fixed header byte length has been read in full, or fails with `ShortRead` if
the stream closes first (section 4.1).  Returns the decoded header and the
rest of the stream. -/
def WireProtocolHeader.from_socket (stream : List Nat) :
    Except PyErr (WireProtocolHeader × List Nat) :=
  if stream.length < 21 then Except.error PyErr.shortRead
  else
    let hb := stream.take 21
    Except.ok
      ({ chunk_id := fromBytesBE (hb.take 8)
         data_len := fromBytesBE ((hb.drop 8).take 8)
         is_compressed := hb.getD 16 0 != 0
         n_chunks_left_on_socket := fromBytesBE (hb.drop 17) },
       stream.drop 21)

/-- The files owned by the Chunk Store, keyed by the path that
`chunk_store.get_chunk_file_path(chunk_id)` resolves (the resolution is
deterministic and idempotent per the spec, so the key is the chunk id). -/
abbrev ChunkFiles := List (Nat × List Nat)

/-- Writing a file at a path: `open("wb")` followed by writing `content`. -/
def setFile (files : ChunkFiles) (cid : Nat) (content : List Nat) : ChunkFiles :=
  match files with
  | [] => [(cid, content)]
  | (c, d) :: rest =>
    if c = cid then (c, content) :: rest else (c, d) :: setFile rest cid content

/-- Configuration of `GatewayReceiver` relevant to `recv_chunks`:
`recv_block_size` (default `4 * MB`) and `max_pending_chunks` (default 1). -/
structure RecvConfig where
  recv_block_size : Nat
  max_pending_chunks : Nat
deriving DecidableEq, Repr

/-- The default `GatewayReceiver` configuration (lines 29-30 of the source). -/
def defaultRecvConfig : RecvConfig := ⟨4 * MB, 1⟩

/-- Embeds the payload read loop of `recv_chunks` (lines 170-181):
`while socket_data_len > 0: nbytes = conn.recv_into(view, min(socket_data_len,
recv_block_size)); ...`.  A `recv` on the stream delivers up to the requested
byte count; on an exhausted stream (peer closed the connection) it delivers 0
bytes and the loop state does not change, so the loop of the source never
exits in that case — the fuel models this: `none` means the fuel ran out with
the loop still running.  The emission of profiling samples into
`socket_profiler_event_queue` (wall-clock timing) is not modelled.
Returns the assembled buffer and the unread rest of the stream. -/
def recvIntoLoop (blockSize : Nat) : Nat → List Nat → Nat → List Nat →
    Option (List Nat × List Nat)
  | fuel, stream, remaining, acc =>
    if remaining = 0 then some (acc, stream)
    else
      match fuel with
      | 0 => none
      | fuel + 1 =>
        let n := min remaining blockSize
        let got := stream.take n
        recvIntoLoop blockSize fuel (stream.drop n) (remaining - got.length) (acc ++ got)

/-- Line 192 of the source evaluates `os.path.getsize(fpath)`, but no name
`fpath` is bound anywhere in `recv_chunks`, the class, or the module: the
expression raises `NameError` instead of producing a size. -/
def osPathGetsizeFpath : Except PyErr Nat :=
  Except.error (PyErr.nameError "fpath")

/-- Embeds the write-retry block of `recv_chunks` (lines 184-203).
One iteration of the `while True` loop at line 185:
the `try` block seeks to 0, writes the assembled buffer and flushes
(lines 187-189), so the chunk bytes are persisted; then line 192 evaluates
`os.path.getsize(fpath)` — a `NameError`, caught at line 195.  Control falls
through to the `print` at lines 198-200, whose f-string reads
`self.chunk_store.remaining_bytes()` (the `remainingBytes` argument) and then
the undefined name `init_space`: an uncaught `NameError`.  Hence every path
through the block persists the buffer and then raises, and the loop runs
exactly one iteration; the `break` path (line 194, which would fall to the
second `f.write(to_write)` at line 203 and double the file) is unreachable. -/
def writeRetryLoop (files : ChunkFiles) (cid dataLen : Nat) (toWrite : List Nat)
    (remainingBytes maxPending : Nat) : ChunkFiles × Except PyErr Unit :=
  let files1 := setFile files cid toWrite
  match osPathGetsizeFpath with
  | Except.ok file_size =>
    if file_size = dataLen then
      (setFile files1 cid (toWrite ++ toWrite), Except.ok ())
    else
      let _ := remainingBytes
      let _ := maxPending
      (files1, Except.error (PyErr.nameError "init_space"))
  | Except.error _ =>
    let _ := remainingBytes
    let _ := maxPending
    (files1, Except.error (PyErr.nameError "init_space"))

/-- How a call to `recv_chunks` ended. -/
inductive RecvOutcome where
  /-- Line 214: returned normally after a header with
  `n_chunks_left_on_socket == 0` was fully processed. -/
  | batchDone
  /-- An exception propagated out of `recv_chunks`. -/
  | raised (e : PyErr)
  /-- The fuel ran out with a loop of the source still running. -/
  | stuck
deriving DecidableEq, Repr

/-- Observable result of a `recv_chunks` call: the Chunk Store files, the
`chunks_received` list, the unread rest of the stream, and the outcome. -/
structure RecvResult where
  files : ChunkFiles
  chunksReceived : List Nat
  stream : List Nat
  outcome : RecvOutcome
deriving DecidableEq, Repr

/-- Embeds `GatewayReceiver.recv_chunks` (lines 139-214).  `cap` is the
environment view of `chunk_store.remaining_bytes()`, indexed by how often it
has been polled; the capacity wait of the spec is commented out in the source
(lines 156-158), so the only reachable read of `cap` is inside the fatally
failing `print` of the write-retry block.  Per loop iteration: decode a
header, read exactly `data_len` payload bytes, run the write-retry block,
check the `assert` of lines 204-206, append to `chunks_received`, and return
if the sentinel `n_chunks_left_on_socket == 0` was reached. -/
def recvChunksLoop (cap : Nat → Nat) (cfg : RecvConfig) :
    Nat → List Nat → ChunkFiles → List Nat → RecvResult
  | 0, stream, files, received => ⟨files, received, stream, RecvOutcome.stuck⟩
  | fuel + 1, stream, files, received =>
    match WireProtocolHeader.from_socket stream with
    | Except.error e => ⟨files, received, stream, RecvOutcome.raised e⟩
    | Except.ok (hdr, stream1) =>
      match recvIntoLoop cfg.recv_block_size fuel stream1 hdr.data_len [] with
      | none => ⟨files, received, stream1, RecvOutcome.stuck⟩
      | some (toWrite, stream2) =>
        match writeRetryLoop files hdr.chunk_id hdr.data_len toWrite (cap 0)
            cfg.max_pending_chunks with
        | (files1, Except.error e) => ⟨files1, received, stream2, RecvOutcome.raised e⟩
        | (files1, Except.ok _) =>
          if toWrite.length = hdr.data_len then
            let received1 := received ++ [hdr.chunk_id]
            if hdr.n_chunks_left_on_socket = 0 then
              ⟨files1, received1, stream2, RecvOutcome.batchDone⟩
            else
              recvChunksLoop cap cfg fuel stream2 files1 received1
          else
            ⟨files1, received, stream2,
             RecvOutcome.raised (PyErr.sizeMismatch toWrite.length hdr.data_len 0)⟩

/-- `recv_chunks` entered with an empty `chunks_received` list (line 141). -/
def recv_chunks (cap : Nat → Nat) (cfg : RecvConfig) (fuel : Nat)
    (stream : List Nat) (files : ChunkFiles) : RecvResult :=
  recvChunksLoop cap cfg fuel stream files []

/-- An entry of the ErrorReport: `server_worker` enqueues
`traceback.format_exc()` (line 97), the rendering of the in-flight exception.
The rendering carries the exception and the raising source location; it
carries no worker id and no chunk id, since neither occurs in any exception
message raised inside `recv_chunks`. -/
structure Traceback where
  exc : PyErr
deriving DecidableEq, Repr

/-- Observable state of one `server_worker` (lines 70-101): its private
`exit_flag`, its own view of whether `error_event` has been set by itself,
the entries it appended to `error_queue`, the loop iterations (by index) it
began, and whether it has closed its connection (line 101). -/
structure WorkerState where
  exitFlag : Bool
  errorEventSet : Bool
  errorQueue : List Traceback
  itersStarted : List Nat
  connClosed : Bool
deriving DecidableEq, Repr

/-- Worker state on entering the loop at line 92. -/
def initWorkerState : WorkerState := ⟨false, false, [], [], false⟩

/-- Embeds the loop of `server_worker` (lines 92-101):
`while not exit_flag.is_set() and not self.error_event.is_set():` followed by
the `try: self.recv_chunks(...) except: put traceback; exit_flag.set();
error_event.set()`, and `ssl_conn.close()` after the loop.  One iteration is
one `recv_chunks` call (one batch attempt).  The shared `error_event` read at
iteration `t` is the disjunction of `external t` (what sibling workers have
set by then; set-once, so monotone in the intended environments) and the
`errorEventSet` flag this worker set itself.  `recvResult t` is the outcome
of the `recv_chunks` call of iteration `t`.  `workerId` is the argument
`worker_id` of `server_worker`; it flows only into profiling samples and log
strings in the source, never into the error queue. -/
def serverWorkerLoop (workerId : Nat) (external : Nat → Bool)
    (recvResult : Nat → Except PyErr Unit) : Nat → Nat → WorkerState → WorkerState
  | 0, _, st => st
  | fuel + 1, t, st =>
    if st.exitFlag || external t || st.errorEventSet then
      { st with connClosed := true }
    else
      let st1 := { st with itersStarted := st.itersStarted ++ [t] }
      match recvResult t with
      | Except.ok _ => serverWorkerLoop workerId external recvResult fuel (t + 1) st1
      | Except.error e =>
        serverWorkerLoop workerId external recvResult fuel (t + 1)
          { st1 with
            errorQueue := st1.errorQueue ++ [Traceback.mk e]
            exitFlag := true
            errorEventSet := true }

/-- A full `server_worker` run from the first loop check. -/
def serverWorkerRun (workerId : Nat) (external : Nat → Bool)
    (recvResult : Nat → Except PyErr Unit) (fuel : Nat) : WorkerState :=
  serverWorkerLoop workerId external recvResult fuel 0 initWorkerState

/-- A spawned worker process as tracked by the pool: the `worker_id` passed
to `server_worker`, the OS process id (`Process.pid`), and the port the
worker bound and published. -/
structure WorkerProc where
  workerId : Nat
  pid : Nat
  port : Nat
deriving DecidableEq, Repr

/-- The registry state of `GatewayReceiver` (lines 47-49): the parallel lists
`server_processes` and `server_ports` and the counter
`next_gateway_worker_id`. -/
structure GatewayState where
  server_processes : List WorkerProc
  server_ports : List Nat
  next_gateway_worker_id : Nat
deriving DecidableEq, Repr

/-- The startup channel of `start_server`: the shared `port_value`
(`Value("i", 0)`, line 68) and `started_event` (`Event()`, line 67). -/
structure StartupChannel where
  port_value : Nat
  started : Bool
deriving DecidableEq, Repr

/-- The channel before the worker runs: port 0, event unset. -/
def initStartupChannel : StartupChannel := ⟨0, false⟩

/-- The states the startup channel passes through, in the program order of
`server_worker`: line 75 writes `port_value` strictly before line 88 sets
`started_event`, so the only state with the event set already carries the
bound port. -/
def workerStartupTrace (boundPort : Nat) : List StartupChannel :=
  [initStartupChannel, ⟨boundPort, false⟩, ⟨boundPort, true⟩]

/-- Embeds `GatewayReceiver.start_server` (lines 66-111).  `boundPort` is the
OS-assigned port the spawned worker binds (line 73-74) and `pid` the OS id of
the spawned process.  `started_event.wait()` (line 107) returns at the first
channel state whose event is set; the caller then reads `port_value`, appends
the process and the read port to the registry, bumps
`next_gateway_worker_id`, and returns the read port. -/
def start_server (s : GatewayState) (boundPort pid : Nat) : Nat × GatewayState :=
  let published :=
    (((workerStartupTrace boundPort).find? (fun ch => ch.started)).map
      (fun ch => ch.port_value)).getD 0
  (published,
   { server_processes := s.server_processes ++ [⟨s.next_gateway_worker_id, pid, boundPort⟩]
     server_ports := s.server_ports ++ [published]
     next_gateway_worker_id := s.next_gateway_worker_id + 1 })

/-- Embeds the lookup loop of `stop_server` (lines 114-118): iterate
`zip(self.server_ports, self.server_processes)` and keep the first process
whose paired port equals `port`. -/
def findMatched : List Nat → List WorkerProc → Nat → Option WorkerProc
  | p :: ps, proc :: procs, port =>
    if p = port then some proc else findMatched ps procs port
  | _, _, _ => none

/-- The process-control side effects `stop_server` performs, in order. -/
inductive KillAction where
  /-- `os.kill(pid, signal.SIGINT)` (line 122): the graceful-stop interrupt. -/
  | sigint (pid : Nat)
  /-- `process.join(timeoutSec)` (line 123): wait up to `timeoutSec` seconds
  for the process to exit on its own. -/
  | join (pid : Nat) (timeoutSec : Nat)
  /-- `process.terminate()` (line 124).  The source calls it unconditionally
  after the join; on a process that already exited it is a no-op, so its
  effect is to forcibly terminate exactly the processes that did not exit
  within the join timeout. -/
  | terminate (pid : Nat)
deriving DecidableEq, Repr

/-- Exceptions of the pool operations. -/
inductive PoolError where
  /-- `ValueError(f"No server found on port {port}")`, line 120. -/
  | noServerFound (port : Nat)
  /-- One of the `assert` statements at lines 133-134 failing. -/
  | assertionFailed
  /-- Fuel exhaustion marker of the embedded `stop_servers` loop (never
  reached with the fuel `stop_servers` supplies). -/
  | outOfFuel
deriving DecidableEq, Repr

/-- Embeds `GatewayReceiver.stop_server` (lines 113-128): find the first
port-matching process; raise `ValueError` if none, leaving the registry
untouched; otherwise send SIGINT, join with a 30 second timeout, terminate,
remove the first occurrence of `port` from `server_ports` and the first
occurrence of the matched process from `server_processes` (Python
`list.remove` semantics), and return the port. -/
def stop_server (s : GatewayState) (port : Nat) :
    GatewayState × List KillAction × Except PoolError Nat :=
  match findMatched s.server_ports s.server_processes port with
  | none => (s, [], Except.error (PoolError.noServerFound port))
  | some proc =>
    ({ s with
        server_ports := s.server_ports.erase port
        server_processes := s.server_processes.erase proc },
     [KillAction.sigint proc.pid, KillAction.join proc.pid 30,
      KillAction.terminate proc.pid],
     Except.ok port)

/-- Embeds the loop of `stop_servers` (lines 131-132):
`for port in self.server_ports: self.stop_server(port)`.  CPython iterates a
list by a cursor index over the live list object, so after `stop_server`
removes an element the cursor skips the element that slid into its slot; the
embedding therefore reads index `i` of the current (already mutated) list
each step.  After the loop, the asserts of lines 133-134 check that both
registry lists are empty; a failing `assert` raises. -/
def stopServersLoop :
    Nat → GatewayState → Nat → List KillAction →
    GatewayState × List KillAction × Except PoolError Unit
  | 0, s, _, acc => (s, acc, Except.error PoolError.outOfFuel)
  | fuel + 1, s, i, acc =>
    if h : i < s.server_ports.length then
      match stop_server s (s.server_ports.get ⟨i, h⟩) with
      | (s1, acts, Except.ok _) => stopServersLoop fuel s1 (i + 1) (acc ++ acts)
      | (s1, acts, Except.error e) => (s1, acc ++ acts, Except.error e)
    else
      if s.server_ports.length = 0 then
        if s.server_processes.length = 0 then (s, acc, Except.ok ())
        else (s, acc, Except.error PoolError.assertionFailed)
      else (s, acc, Except.error PoolError.assertionFailed)

/-- Embeds `GatewayReceiver.stop_servers` (lines 130-134).  The fuel
`length + 1` covers every possible run: the cursor grows by one per
iteration, so at most `length` iterations happen before the cursor passes the
end of the (only ever shrinking) list. -/
def stop_servers (s : GatewayState) :
    GatewayState × List KillAction × Except PoolError Unit :=
  stopServersLoop (s.server_ports.length + 1) s 0 []

/-- The pairing of the two registry lists: equal length, and the port stored
at index `i` of `server_ports` is the port of the worker at index `i` of
`server_processes`. -/
def portsAligned : List Nat → List WorkerProc → Prop
  | [], [] => True
  | p :: ps, proc :: procs => p = proc.port ∧ portsAligned ps procs
  | _, _ => False

instance portsAligned.instDecidable :
    (ps : List Nat) → (procs : List WorkerProc) → Decidable (portsAligned ps procs)
  | [], [] => Decidable.isTrue trivial
  | [], _ :: _ => Decidable.isFalse (fun h => h)
  | _ :: _, [] => Decidable.isFalse (fun h => h)
  | p :: ps, proc :: procs =>
    have : Decidable (portsAligned ps procs) := portsAligned.instDecidable ps procs
    inferInstanceAs (Decidable (p = proc.port ∧ portsAligned ps procs))

/-- The registry invariant of the Worker Pool Manager: `server_ports` and
`server_processes` have equal length and are pairwise matched. -/
def RegistryInv (s : GatewayState) : Prop :=
  portsAligned s.server_ports s.server_processes

instance RegistryInv.instDecidable (s : GatewayState) : Decidable (RegistryInv s) :=
  portsAligned.instDecidable s.server_ports s.server_processes

instance exceptDecidableEq {ε α : Type} [DecidableEq ε] [DecidableEq α] :
    DecidableEq (Except ε α) := fun x y =>
  match x, y with
  | Except.ok a, Except.ok b =>
    if h : a = b then Decidable.isTrue (congrArg Except.ok h)
    else Decidable.isFalse (fun hh => h (Except.ok.inj hh))
  | Except.error a, Except.error b =>
    if h : a = b then Decidable.isTrue (congrArg Except.error h)
    else Decidable.isFalse (fun hh => h (Except.error.inj hh))
  | Except.ok _, Except.error _ => Decidable.isFalse (fun hh => Except.noConfusion hh)
  | Except.error _, Except.ok _ => Decidable.isFalse (fun hh => Except.noConfusion hh)

/-- Removal of the first port-matching pair from the two parallel registry
lists, written after the words of the spec for `stop_worker`: "removes the
worker from the registry", one matched port/process pair. -/
def removeFirstMatched : List Nat → List WorkerProc → Nat → List Nat × List WorkerProc
  | p :: ps, proc :: procs, port =>
    if p = port then (ps, procs)
    else
      let r := removeFirstMatched ps procs port
      (p :: r.1, proc :: r.2)
  | ps, procs, _ => (ps, procs)

/-- A public pool operation together with the environment data it consumes. -/
inductive PoolOp where
  | start (boundPort pid : Nat)
  | stop (port : Nat)
  | stopAll
deriving DecidableEq, Repr

/-- Runs one public pool operation; `none` when the operation raised
(`ValueError` of `stop_server`, or an `assert` of `stop_servers`), `some`
of the post-state when it completed normally. -/
def applyOp (s : GatewayState) : PoolOp → Option GatewayState
  | PoolOp.start boundPort pid => some (start_server s boundPort pid).2
  | PoolOp.stop port =>
    match stop_server s port with
    | (s1, _, Except.ok _) => some s1
    | (_, _, Except.error _) => none
  | PoolOp.stopAll =>
    match stop_servers s with
    | (s1, _, Except.ok _) => some s1
    | (_, _, Except.error _) => none

/-- Decidable rendering of the removal clause of the registry invariant
claim: when `op` is a `stop`, the completed operation removed exactly the
first matched port/process pair and shrank the registry by one. -/
def stopRemovalCheck (s : GatewayState) (op : PoolOp) (s1 : GatewayState) : Bool :=
  match op with
  | PoolOp.stop port =>
    decide ((s1.server_ports, s1.server_processes) =
      removeFirstMatched s.server_ports s.server_processes port)
    && decide (s.server_ports.length = s1.server_ports.length + 1)
  | _ => true

/-! ## Theorems -/

/-- Claim C1 (code behavior at the failing input): a single chunk whose
header declares `data_len = 3` and whose 3 payload bytes all arrive is
persisted byte-identically at the resolved path for chunk id 7, but
`recv_chunks` then raises `NameError` (the undefined names `fpath` and
`init_space` of the write-retry block) before the size check and the
sentinel check, so the loop does not complete steps 5 and 6 and an error is
reported for the chunk — contradicting the claim that no error is reported. -/
theorem recv_chunks_persists_bytes_then_raises :
    recv_chunks (fun _ => 0) defaultRecvConfig 4
      (WireProtocolHeader.encode ⟨7, 3, false, 0⟩ ++ [10, 20, 30]) [] =
    ⟨[(7, [10, 20, 30])], [], [], RecvOutcome.raised (PyErr.nameError "init_space")⟩ := by
  decide

/-- Payload read loop on an exhausted stream: once the peer has closed the
connection, every `recv_into` returns 0 bytes, the loop state never changes,
and the loop of the source never exits — for every fuel the embedding reports
the loop as still running. -/
theorem recvIntoLoop_closed_conn_stuck (blockSize : Nat) :
    ∀ (fuel remaining : Nat) (acc : List Nat), remaining ≠ 0 →
      recvIntoLoop blockSize fuel [] remaining acc = none := by
  intro fuel
  induction fuel with
  | zero => intro remaining acc h; simp [recvIntoLoop, h]
  | succ fuel ih =>
    intro remaining acc h
    rw [recvIntoLoop]
    simp only [if_neg h]
    simpa using ih remaining acc h

/-- With `data_len = 4` but only two payload bytes on the stream, the payload
loop consumes the two bytes and then spins on the closed connection. -/
theorem recvIntoLoop_two_of_four_stuck :
    ∀ fuel, recvIntoLoop (4 * MB) fuel [1, 2] 4 [] = none
  | 0 => rfl
  | fuel + 1 => recvIntoLoop_closed_conn_stuck (4 * MB) fuel 2 [1, 2] (by decide)

/-- Claim C2 (code behavior at the failing input): the peer sends a header
declaring `data_len = 4` and closes after two payload bytes.  `recv_chunks`
does not terminate with a `ShortRead` error: the payload loop never checks
for a zero-byte `recv`, so it spins forever — for every fuel the run is still
inside the loop, and no error (and no success) is ever reported. -/
theorem recv_chunks_short_read_spins_forever (fuel : Nat) :
    (recv_chunks (fun _ => 0) defaultRecvConfig fuel
      (WireProtocolHeader.encode ⟨7, 4, false, 0⟩ ++ [1, 2]) []).outcome =
    RecvOutcome.stuck := by
  cases fuel with
  | zero => rfl
  | succ fuel =>
    have hh : WireProtocolHeader.from_socket
        (WireProtocolHeader.encode ⟨7, 4, false, 0⟩ ++ [1, 2]) =
        Except.ok (⟨7, 4, false, 0⟩, [1, 2]) := by decide
    have hr := recvIntoLoop_two_of_four_stuck fuel
    simp [recv_chunks, recvChunksLoop, hh, defaultRecvConfig, hr]

/-- Witness for C2 at fuel 7. -/
theorem recv_chunks_short_read_spins_forever_witness :
    (recv_chunks (fun _ => 0) defaultRecvConfig 7
      (WireProtocolHeader.encode ⟨7, 4, false, 0⟩ ++ [1, 2]) []).outcome =
    RecvOutcome.stuck :=
  recv_chunks_short_read_spins_forever 7

/-- Claim C3 (code behavior at the failing input): whatever value sequence
`chunk_store.remaining_bytes()` would report — zero for several polls, zero
forever, or always ample — `recv_chunks` behaves identically: the capacity
wait of the spec is commented out in the source, so the chunk write is
committed unconditionally (here with capacity 0 the chunk is still written),
no stall or periodic re-check ever happens, and the run then raises the
`NameError` of the write-retry block instead of succeeding after recovery. -/
theorem recv_chunks_ignores_capacity (cap : Nat → Nat) :
    recv_chunks cap defaultRecvConfig 4
      (WireProtocolHeader.encode ⟨9, 2, false, 0⟩ ++ [5, 6]) [] =
    ⟨[(9, [5, 6])], [], [], RecvOutcome.raised (PyErr.nameError "init_space")⟩ := rfl

/-- Witness for C3 at the capacity schedule of the spec scenario: capacity 0
for three polls, then recovered. -/
theorem recv_chunks_ignores_capacity_witness :
    recv_chunks (fun n => if n < 3 then 0 else 1000000000) defaultRecvConfig 4
      (WireProtocolHeader.encode ⟨9, 2, false, 0⟩ ++ [5, 6]) [] =
    ⟨[(9, [5, 6])], [], [], RecvOutcome.raised (PyErr.nameError "init_space")⟩ :=
  recv_chunks_ignores_capacity (fun n => if n < 3 then 0 else 1000000000)

/-- Claim C4 (code behavior at the failing input): with two registered
workers (ports 5001 and 5002), `stop_servers` iterates over `server_ports`
while `stop_server` removes from it, so the cursor skips port 5002 after
5001 slides out: only the first worker receives SIGINT/join/terminate, the
registry still holds the second pair, and the own `assert` of line 133
fails — contradicting the claim that every worker is stopped and the
registry is empty. -/
theorem stop_servers_skips_second_worker :
    stop_servers ⟨[⟨0, 11, 5001⟩, ⟨1, 12, 5002⟩], [5001, 5002], 2⟩ =
    (⟨[⟨1, 12, 5002⟩], [5002], 2⟩,
     [KillAction.sigint 11, KillAction.join 11 30, KillAction.terminate 11],
     Except.error PoolError.assertionFailed) := by
  decide

/-- Claim C8 (code behavior at the failing input): a batch of two chunks
(headers with `n_chunks_left_on_socket` 1 then 0, one payload byte each)
is never consumed as a batch: the write-retry block raises `NameError` on
the very first chunk, `recv_chunks` propagates the exception with the second
header still unread on the stream and `chunks_received` empty, so control
never reaches the sentinel return and the worker cannot re-enter
`recv_chunks` for this batch result. -/
theorem recv_chunks_batch_never_completes :
    recv_chunks (fun _ => 0) defaultRecvConfig 6
      (WireProtocolHeader.encode ⟨1, 1, false, 1⟩ ++ [42]
        ++ WireProtocolHeader.encode ⟨2, 1, false, 0⟩ ++ [43]) [] =
    ⟨[(1, [42])], [],
     WireProtocolHeader.encode ⟨2, 1, false, 0⟩ ++ [43],
     RecvOutcome.raised (PyErr.nameError "init_space")⟩ := by
  decide

/-- Unfolding equation of the worker loop at fuel 0. -/
theorem serverWorkerLoop_zero (workerId : Nat) (external : Nat → Bool)
    (recvResult : Nat → Except PyErr Unit) (t : Nat) (st : WorkerState) :
    serverWorkerLoop workerId external recvResult 0 t st = st := rfl

/-- Unfolding equation of the worker loop at positive fuel. -/
theorem serverWorkerLoop_succ (workerId : Nat) (external : Nat → Bool)
    (recvResult : Nat → Except PyErr Unit) (fuel t : Nat) (st : WorkerState) :
    serverWorkerLoop workerId external recvResult (fuel + 1) t st =
    if st.exitFlag || external t || st.errorEventSet then
      { st with connClosed := true }
    else
      match recvResult t with
      | Except.ok _ =>
        serverWorkerLoop workerId external recvResult fuel (t + 1)
          { st with itersStarted := st.itersStarted ++ [t] }
      | Except.error e =>
        serverWorkerLoop workerId external recvResult fuel (t + 1)
          { st with
            itersStarted := st.itersStarted ++ [t]
            errorQueue := st.errorQueue ++ [Traceback.mk e]
            exitFlag := true
            errorEventSet := true } := rfl

/-- Any iteration the worker loop begins was either already begun, or begins
at an index at or past the current cursor at which the shared fault signal
read false. -/
theorem serverWorkerLoop_iters_mem (workerId : Nat) (external : Nat → Bool)
    (recvResult : Nat → Except PyErr Unit) :
    ∀ (fuel start : Nat) (st : WorkerState) (x : Nat),
      x ∈ (serverWorkerLoop workerId external recvResult fuel start st).itersStarted →
      x ∈ st.itersStarted ∨ (start ≤ x ∧ external x = false) := by
  intro fuel
  induction fuel with
  | zero => intro start st x hx; exact Or.inl hx
  | succ fuel ih =>
    intro start st x hx
    rw [serverWorkerLoop_succ] at hx
    by_cases hg : (st.exitFlag || external start || st.errorEventSet) = true
    · rw [if_pos hg] at hx
      exact Or.inl hx
    · rw [if_neg hg] at hx
      simp only [Bool.or_eq_true, not_or, Bool.not_eq_true] at hg
      cases hrecv : recvResult start with
      | ok u =>
        rw [hrecv] at hx
        rcases ih (start + 1) _ x hx with h | ⟨hle, hf⟩
        · rcases List.mem_append.mp h with h | h
          · exact Or.inl h
          · rcases List.mem_singleton.mp h with rfl
            exact Or.inr ⟨Nat.le_refl x, hg.1.2⟩
        · exact Or.inr ⟨Nat.le_of_succ_le hle, hf⟩
      | error e =>
        rw [hrecv] at hx
        rcases ih (start + 1) _ x hx with h | ⟨hle, hf⟩
        · rcases List.mem_append.mp h with h | h
          · exact Or.inl h
          · rcases List.mem_singleton.mp h with rfl
            exact Or.inr ⟨Nat.le_refl x, hg.1.2⟩
        · exact Or.inr ⟨Nat.le_of_succ_le hle, hf⟩

/-- A set-once boolean stays set: monotone closure of the fault signal. -/
theorem externalSetFrom (external : Nat → Bool)
    (mono : ∀ t, external t = true → external (t + 1) = true)
    (t0 : Nat) (hset : external t0 = true) :
    ∀ t, t0 ≤ t → external t = true := by
  intro t ht
  induction t, ht using Nat.le_induction with
  | base => exact hset
  | succ n _ ihn => exact mono n ihn

/-- Claim C5: the worker loop reads the shared fault signal in its guard on
every iteration (one iteration is one `recv_chunks` call); once a sibling
worker has set the set-once signal at iteration boundary `t0`, this worker
never begins an iteration with index at or past `t0` — whatever its own
`recv_chunks` outcomes are — so it stops within the one iteration that was in
flight, with no direct message from the failing worker. -/
theorem fault_signal_stops_worker (workerId t0 fuel : Nat) (external : Nat → Bool)
    (recvResult : Nat → Except PyErr Unit)
    (mono : ∀ t, external t = true → external (t + 1) = true)
    (hset : external t0 = true) :
    (serverWorkerRun workerId external recvResult fuel).itersStarted.all
      (fun t => decide (t < t0)) = true := by
  rw [List.all_eq_true]
  intro x hx
  rw [decide_eq_true_eq]
  rcases serverWorkerLoop_iters_mem workerId external recvResult fuel 0
      initWorkerState x hx with h | ⟨_, hfalse⟩
  · exact absurd h (List.not_mem_nil x)
  · by_contra hge
    push_neg at hge
    rw [externalSetFrom external mono t0 hset x hge] at hfalse
    exact absurd hfalse (by decide)

/-- Witness for C5: with the fault signal already set at boundary 0, a run
with fuel 3 begins no iteration at all. -/
theorem fault_signal_stops_worker_witness :
    (serverWorkerRun 0 (fun _ => true) (fun _ => Except.ok ()) 3).itersStarted.all
      (fun t => decide (t < 0)) = true :=
  fault_signal_stops_worker 0 0 3 (fun _ => true) (fun _ => Except.ok ())
    (fun _ h => h) rfl

/-- While `recv_chunks` keeps returning normally (and no sibling fault is
signalled), the worker loop just advances its cursor, accumulating one begun
iteration per step. -/
theorem serverWorkerLoop_ok_steps (workerId : Nat)
    (recvResult : Nat → Except PyErr Unit) :
    ∀ (n : Nat) (fuel start : Nat) (st : WorkerState),
      st.exitFlag = false → st.errorEventSet = false →
      (∀ j, j < n → recvResult (start + j) = Except.ok ()) →
      serverWorkerLoop workerId (fun _ => false) recvResult (fuel + n) start st =
      serverWorkerLoop workerId (fun _ => false) recvResult fuel (start + n)
        { st with itersStarted := st.itersStarted ++ List.range' start n } := by
  intro n
  induction n with
  | zero =>
    intro fuel start st _ _ _
    simp
  | succ n ih =>
    intro fuel start st hexit herr hok
    have hstep : serverWorkerLoop workerId (fun _ => false) recvResult (fuel + n + 1) start st =
        serverWorkerLoop workerId (fun _ => false) recvResult (fuel + n) (start + 1)
          { st with itersStarted := st.itersStarted ++ [start] } := by
      rw [serverWorkerLoop_succ]
      have h0 : recvResult (start + 0) = Except.ok () := hok 0 (Nat.succ_pos n)
      rw [Nat.add_zero] at h0
      rw [hexit, herr, h0]
      rfl
    have harith : fuel + (n + 1) = fuel + n + 1 := rfl
    rw [harith, hstep]
    rw [ih fuel (start + 1)
      { st with itersStarted := st.itersStarted ++ [start] } hexit herr
      (fun j hj => by
        have : start + 1 + j = start + (j + 1) := by omega
        rw [this]
        exact hok (j + 1) (Nat.succ_lt_succ hj))]
    have hiters : (st.itersStarted ++ [start]) ++ List.range' (start + 1) n =
        st.itersStarted ++ List.range' start (n + 1) := by
      rw [List.append_assoc, List.range'_succ, List.singleton_append]
    have hcursor : start + 1 + n = start + (n + 1) := by omega
    rw [hiters, hcursor]

/-- Claim C6 (amended form): when `recv_chunks` raises at iteration `t`
after `t` clean batches (with no sibling fault signalled), the worker appends
exactly one ErrorReport entry — the traceback rendering of the exception —
sets the process-wide fault signal, sets its own exit flag, terminates after
that iteration (iterations 0 through `t` and no more), and closes its
connection. -/
theorem worker_error_propagation (workerId t fuel : Nat) (e : PyErr)
    (recvResult : Nat → Except PyErr Unit)
    (hok : ∀ j, j < t → recvResult j = Except.ok ())
    (herr : recvResult t = Except.error e)
    (hfuel : t + 2 ≤ fuel) :
    serverWorkerRun workerId (fun _ => false) recvResult fuel =
      ⟨true, true, [Traceback.mk e], List.range (t + 1), true⟩ := by
  obtain ⟨d, rfl⟩ : ∃ d, fuel = d + 1 + 1 + t := ⟨fuel - 2 - t, by omega⟩
  unfold serverWorkerRun
  have hexp : d + 1 + 1 + t = (d + 1 + 1) + t := rfl
  rw [hexp, serverWorkerLoop_ok_steps workerId recvResult t (d + 1 + 1) 0
    initWorkerState rfl rfl (fun j hj => by simpa using hok j hj)]
  rw [serverWorkerLoop_succ]
  have hguard : ({ initWorkerState with
      itersStarted := initWorkerState.itersStarted ++ List.range' 0 t } :
      WorkerState).exitFlag = false := rfl
  rw [Nat.zero_add, herr]
  simp only [hguard, Bool.false_or]
  rw [serverWorkerLoop_succ]
  simp only [Bool.true_or]
  show ({ exitFlag := true, errorEventSet := true,
          errorQueue := ([] : List Traceback) ++ [Traceback.mk e],
          itersStarted := (([] : List Nat) ++ List.range' 0 t) ++ [t],
          connClosed := true } : WorkerState) = _
  have hr : (([] : List Nat) ++ List.range' 0 t) ++ [t] = List.range (t + 1) := by
    rw [List.nil_append, List.range_succ, List.range_eq_range']
  rw [hr, List.nil_append]

/-- Witness for the amended C6: one clean batch, then a `NameError` at
iteration 1. -/
theorem worker_error_propagation_witness :
    serverWorkerRun 0 (fun _ => false)
      (fun t => if t < 1 then Except.ok () else Except.error (PyErr.nameError "init_space"))
      4 =
      ⟨true, true, [Traceback.mk (PyErr.nameError "init_space")], List.range 2, true⟩ :=
  worker_error_propagation 0 1 4 (PyErr.nameError "init_space")
    (fun t => if t < 1 then Except.ok () else Except.error (PyErr.nameError "init_space"))
    (by decide) (by decide) (by decide)

/-- Counterexample to C6 as stated: the entry appended to the ErrorReport is
`traceback.format_exc()` alone; it does not identify the worker.  Two workers
with different worker ids, failing identically, append byte-identical
entries, so no consumer of the ErrorReport can tell the workers apart from
the entry. -/
theorem error_report_entry_lacks_worker_identity :
    (serverWorkerRun 0 (fun _ => false)
        (fun _ => Except.error (PyErr.nameError "init_space")) 3).errorQueue =
      (serverWorkerRun 1 (fun _ => false)
        (fun _ => Except.error (PyErr.nameError "init_space")) 3).errorQueue
    ∧ (0 : Nat) ≠ 1 := by
  exact ⟨rfl, by decide⟩

/-- The lookup loop of `stop_server` finds nothing when no registered port
equals the requested one. -/
theorem findMatched_none_of_not_mem :
    ∀ (ps : List Nat) (procs : List WorkerProc) (port : Nat),
      port ∉ ps → findMatched ps procs port = none := by
  intro ps
  induction ps with
  | nil => intro procs port _; cases procs <;> rfl
  | cons p ps ih =>
    intro procs port hmem
    cases procs with
    | nil => rfl
    | cons proc procs =>
      rw [findMatched]
      have hp : ¬(p = port) := fun h => hmem (by rw [← h]; exact List.mem_cons_self p ps)
      rw [if_neg hp]
      exact ih procs port (fun h => hmem (List.mem_cons_of_mem p h))

/-- Under the registry pairing, the matched process owns the requested
port. -/
theorem findMatched_port_eq :
    ∀ (ps : List Nat) (procs : List WorkerProc) (port : Nat) (proc : WorkerProc),
      portsAligned ps procs → findMatched ps procs port = some proc →
      proc.port = port := by
  intro ps
  induction ps with
  | nil =>
    intro procs port proc _ hfind
    cases procs <;> exact Option.noConfusion hfind
  | cons p ps ih =>
    intro procs port proc halign hfind
    cases procs with
    | nil => exact Option.noConfusion hfind
    | cons proc0 procs =>
      rw [findMatched] at hfind
      by_cases hp : p = port
      · rw [if_pos hp] at hfind
        rw [← Option.some.inj hfind, ← halign.1, hp]
      · rw [if_neg hp] at hfind
        exact ih procs port proc halign.2 hfind

/-- The two Python `list.remove` calls of `stop_server` remove exactly the
matched pair: erasing the first occurrence of the port from `server_ports`
and the first occurrence of the matched process from `server_processes`
removes the two entries at the same position. -/
theorem erase_pair_eq_removeFirstMatched :
    ∀ (ps : List Nat) (procs : List WorkerProc) (port : Nat) (proc : WorkerProc),
      portsAligned ps procs → findMatched ps procs port = some proc →
      ps.erase port = (removeFirstMatched ps procs port).1 ∧
      procs.erase proc = (removeFirstMatched ps procs port).2 := by
  intro ps
  induction ps with
  | nil =>
    intro procs port proc _ hfind
    cases procs <;> exact Option.noConfusion hfind
  | cons p ps ih =>
    intro procs port proc halign hfind
    cases procs with
    | nil => exact Option.noConfusion hfind
    | cons proc0 procs =>
      rw [findMatched] at hfind
      by_cases hp : p = port
      · rw [if_pos hp] at hfind
        have hproc : proc0 = proc := Option.some.inj hfind
        subst hproc
        subst hp
        constructor
        · rw [List.erase_cons_head, removeFirstMatched, if_pos rfl]
        · rw [List.erase_cons_head, removeFirstMatched, if_pos rfl]
      · rw [if_neg hp] at hfind
        have hport : proc.port = port := findMatched_port_eq ps procs port proc halign.2 hfind
        have hne0 : proc0 ≠ proc := by
          intro h
          apply hp
          rw [halign.1, h, hport]
        obtain ⟨h1, h2⟩ := ih procs port proc halign.2 hfind
        constructor
        · rw [List.erase_cons_tail (by simpa using hp), removeFirstMatched, if_neg hp, h1]
        · rw [List.erase_cons_tail (by simpa using hne0), removeFirstMatched, if_neg hp, h2]

/-- Removing a matched pair keeps the two registry lists pairwise matched. -/
theorem portsAligned_removeFirstMatched :
    ∀ (ps : List Nat) (procs : List WorkerProc) (port : Nat),
      portsAligned ps procs →
      portsAligned (removeFirstMatched ps procs port).1
        (removeFirstMatched ps procs port).2 := by
  intro ps
  induction ps with
  | nil =>
    intro procs port halign
    cases procs with
    | nil => exact halign
    | cons proc0 procs => exact absurd halign (fun h => h)
  | cons p ps ih =>
    intro procs port halign
    cases procs with
    | nil => exact absurd halign (fun h => h)
    | cons proc0 procs =>
      by_cases hp : p = port
      · rw [removeFirstMatched, if_pos hp]
        exact halign.2
      · rw [removeFirstMatched, if_neg hp]
        exact ⟨halign.1, ih procs port halign.2⟩

/-- A successful lookup means the removal shrinks `server_ports` by exactly
one entry. -/
theorem removeFirstMatched_length :
    ∀ (ps : List Nat) (procs : List WorkerProc) (port : Nat) (proc : WorkerProc),
      findMatched ps procs port = some proc →
      ps.length = (removeFirstMatched ps procs port).1.length + 1 := by
  intro ps
  induction ps with
  | nil =>
    intro procs port proc hfind
    cases procs <;> exact Option.noConfusion hfind
  | cons p ps ih =>
    intro procs port proc hfind
    cases procs with
    | nil => exact Option.noConfusion hfind
    | cons proc0 procs =>
      rw [findMatched] at hfind
      by_cases hp : p = port
      · rw [removeFirstMatched, if_pos hp]
        rfl
      · rw [if_neg hp] at hfind
        rw [removeFirstMatched, if_neg hp]
        simp only [List.length_cons]
        rw [ih procs port proc hfind]

/-- Claim C7: `stop_server` raises the lookup error and leaves the registry
and the process table untouched when no registered worker owns the port;
when a worker matches, it emits SIGINT, a 30 second join, and a terminate to
exactly that process (the unconditional terminate acts only on a process
that did not exit during the join), removes exactly the matched
port/process pair — one entry from each list, at the same position —
and returns the port. -/
theorem stop_server_contract (s : GatewayState) (port : Nat) :
    (port ∉ s.server_ports →
      stop_server s port = (s, [], Except.error (PoolError.noServerFound port)))
    ∧ (∀ proc : WorkerProc,
        findMatched s.server_ports s.server_processes port = some proc →
        RegistryInv s →
        stop_server s port =
          ({ server_processes := (removeFirstMatched s.server_ports s.server_processes port).2
             server_ports := (removeFirstMatched s.server_ports s.server_processes port).1
             next_gateway_worker_id := s.next_gateway_worker_id },
           [KillAction.sigint proc.pid, KillAction.join proc.pid 30,
            KillAction.terminate proc.pid],
           Except.ok port)
        ∧ proc.port = port
        ∧ s.server_ports.length =
            (removeFirstMatched s.server_ports s.server_processes port).1.length + 1) := by
  constructor
  · intro hmem
    rw [stop_server, findMatched_none_of_not_mem s.server_ports s.server_processes port hmem]
  · intro proc hfind hinv
    obtain ⟨h1, h2⟩ := erase_pair_eq_removeFirstMatched s.server_ports s.server_processes
      port proc hinv hfind
    refine ⟨?_, findMatched_port_eq s.server_ports s.server_processes port proc hinv hfind,
      removeFirstMatched_length s.server_ports s.server_processes port proc hfind⟩
    rw [stop_server, hfind, ← h1, ← h2]

/-- Witness for C7 at a two-worker registry, stopping the second port. -/
theorem stop_server_contract_witness :
    stop_server ⟨[⟨0, 11, 5001⟩, ⟨1, 12, 5002⟩], [5001, 5002], 2⟩ 5002 =
      ({ server_processes := (removeFirstMatched [5001, 5002]
            [⟨0, 11, 5001⟩, ⟨1, 12, 5002⟩] 5002).2
         server_ports := (removeFirstMatched [5001, 5002]
            [⟨0, 11, 5001⟩, ⟨1, 12, 5002⟩] 5002).1
         next_gateway_worker_id := 2 },
       [KillAction.sigint 12, KillAction.join 12 30, KillAction.terminate 12],
       Except.ok 5002)
    ∧ (⟨1, 12, 5002⟩ : WorkerProc).port = 5002
    ∧ ([5001, 5002] : List Nat).length =
        (removeFirstMatched [5001, 5002] [⟨0, 11, 5001⟩, ⟨1, 12, 5002⟩] 5002).1.length + 1 :=
  (stop_server_contract ⟨[⟨0, 11, 5001⟩, ⟨1, 12, 5002⟩], [5001, 5002], 2⟩ 5002).2
    ⟨1, 12, 5002⟩ (by decide) (by decide)

/-- Claim C9: `start_server` is synchronous with the worker startup — in
every observable state of the startup channel in which the ready event is
set, `port_value` already holds the bound port (program order of lines 75
and 88), and the wait-then-read of `start_server` therefore returns exactly
the port the spawned worker bound; the call appends the matched
process/port pair to the registry and bumps the worker id counter, and a
second call yields a second, independent worker entry with the next worker
id and its own port. -/
theorem start_server_contract (s : GatewayState) (boundPort pid boundPort2 pid2 : Nat) :
    ((workerStartupTrace boundPort).all
        (fun ch => !ch.started || decide (ch.port_value = boundPort)) = true)
    ∧ (start_server s boundPort pid).1 = boundPort
    ∧ (start_server s boundPort pid).2.server_ports = s.server_ports ++ [boundPort]
    ∧ (start_server s boundPort pid).2.server_processes =
        s.server_processes ++ [⟨s.next_gateway_worker_id, pid, boundPort⟩]
    ∧ (start_server s boundPort pid).2.next_gateway_worker_id =
        s.next_gateway_worker_id + 1
    ∧ (start_server (start_server s boundPort pid).2 boundPort2 pid2).2.server_processes =
        s.server_processes ++ [⟨s.next_gateway_worker_id, pid, boundPort⟩,
          ⟨s.next_gateway_worker_id + 1, pid2, boundPort2⟩]
    ∧ (start_server (start_server s boundPort pid).2 boundPort2 pid2).2.server_ports =
        s.server_ports ++ [boundPort, boundPort2] := by
  have hpub : ∀ p : Nat,
      (((workerStartupTrace p).find? (fun ch => ch.started)).map
        (fun ch => ch.port_value)).getD 0 = p := fun _ => rfl
  refine ⟨?_, rfl, rfl, rfl, rfl, by simp [start_server, hpub], by simp [start_server, hpub]⟩
  simp [workerStartupTrace, initStartupChannel]

/-- Witness for C9 on a concrete registry and two concrete spawns. -/
theorem start_server_contract_witness :
    ((workerStartupTrace 5001).all
        (fun ch => !ch.started || decide (ch.port_value = 5001)) = true)
    ∧ (start_server ⟨[], [], 0⟩ 5001 11).1 = 5001
    ∧ (start_server ⟨[], [], 0⟩ 5001 11).2.server_ports = [] ++ [5001]
    ∧ (start_server ⟨[], [], 0⟩ 5001 11).2.server_processes = [] ++ [⟨0, 11, 5001⟩]
    ∧ (start_server ⟨[], [], 0⟩ 5001 11).2.next_gateway_worker_id = 0 + 1
    ∧ (start_server (start_server ⟨[], [], 0⟩ 5001 11).2 5002 12).2.server_processes =
        [] ++ [⟨0, 11, 5001⟩, ⟨0 + 1, 12, 5002⟩]
    ∧ (start_server (start_server ⟨[], [], 0⟩ 5001 11).2 5002 12).2.server_ports =
        [] ++ [5001, 5002] :=
  start_server_contract ⟨[], [], 0⟩ 5001 11 5002 12

/-- `stop_servers` only returns normally when both its final asserts pass,
that is, when the final registry lists are empty. -/
theorem stopServersLoop_ok_empty :
    ∀ (fuel : Nat) (s : GatewayState) (i : Nat) (acc : List KillAction)
      (s1 : GatewayState) (acts : List KillAction),
      stopServersLoop fuel s i acc = (s1, acts, Except.ok ()) →
      s1.server_ports = [] ∧ s1.server_processes = [] := by
  intro fuel
  induction fuel with
  | zero =>
    intro s i acc s1 acts h
    exact absurd (congrArg (fun r => r.2.2) h) (by simp [stopServersLoop])
  | succ fuel ih =>
    intro s i acc s1 acts h
    rw [stopServersLoop] at h
    by_cases hlt : i < s.server_ports.length
    · rw [dif_pos hlt] at h
      rcases hss : stop_server s (s.server_ports.get ⟨i, hlt⟩) with ⟨s2, acts2, r⟩
      rw [hss] at h
      cases r with
      | ok v => exact ih s2 (i + 1) (acc ++ acts2) s1 acts h
      | error e => exact absurd (congrArg (fun r => r.2.2) h) (by simp)
    · rw [dif_neg hlt] at h
      by_cases hp : s.server_ports.length = 0
      · rw [if_pos hp] at h
        by_cases hq : s.server_processes.length = 0
        · rw [if_pos hq] at h
          have hs1 : s = s1 := congrArg (fun r => r.1) h
          rw [← hs1]
          exact ⟨List.length_eq_zero.mp hp, List.length_eq_zero.mp hq⟩
        · rw [if_neg hq] at h
          exact absurd (congrArg (fun r => r.2.2) h) (by simp)
      · rw [if_neg hp] at h
        exact absurd (congrArg (fun r => r.2.2) h) (by simp)

/-- Appending a matched pair keeps the registry lists pairwise matched. -/
theorem portsAligned_append :
    ∀ (ps : List Nat) (procs : List WorkerProc) (proc : WorkerProc),
      portsAligned ps procs →
      portsAligned (ps ++ [proc.port]) (procs ++ [proc]) := by
  intro ps
  induction ps with
  | nil =>
    intro procs proc halign
    cases procs with
    | nil => exact ⟨rfl, trivial⟩
    | cons _ _ => exact absurd halign (fun h => h)
  | cons p ps ih =>
    intro procs proc halign
    cases procs with
    | nil => exact absurd halign (fun h => h)
    | cons proc0 procs => exact ⟨halign.1, ih procs proc halign.2⟩

/-- Claim C10: the registry pairing invariant — equal lengths of
`server_ports` and `server_processes`, with the port at each index being the
port of the worker at the same index — holds after every completed public
operation, and a completed `stop_server` removes exactly the first matched
port/process pair, shrinking the registry by one. -/
theorem registry_pairing_invariant (s s1 : GatewayState) (op : PoolOp)
    (hinv : RegistryInv s) (happ : applyOp s op = some s1) :
    RegistryInv s1 ∧ stopRemovalCheck s op s1 = true := by
  cases op with
  | start boundPort pid =>
    rw [applyOp] at happ
    obtain rfl := Option.some.inj happ
    constructor
    · exact portsAligned_append s.server_ports s.server_processes
        ⟨s.next_gateway_worker_id, pid, boundPort⟩ hinv
    · rfl
  | stop port =>
    rw [applyOp] at happ
    cases hfind : findMatched s.server_ports s.server_processes port with
    | none =>
      rw [stop_server, hfind] at happ
      exact Option.noConfusion happ
    | some proc =>
      rw [stop_server, hfind] at happ
      obtain rfl := Option.some.inj happ
      obtain ⟨h1, h2⟩ := erase_pair_eq_removeFirstMatched s.server_ports
        s.server_processes port proc hinv hfind
      constructor
      · show portsAligned (s.server_ports.erase port) (s.server_processes.erase proc)
        rw [h1, h2]
        exact portsAligned_removeFirstMatched s.server_ports s.server_processes port hinv
      · rw [stopRemovalCheck]
        have hpair : ((s.server_ports.erase port, s.server_processes.erase proc) :
            List Nat × List WorkerProc) =
            removeFirstMatched s.server_ports s.server_processes port := by
          rw [h1, h2]
        have hlen : s.server_ports.length = (s.server_ports.erase port).length + 1 := by
          rw [h1]
          exact removeFirstMatched_length s.server_ports s.server_processes port proc hfind
        rw [decide_eq_true hpair, decide_eq_true hlen]
        rfl
  | stopAll =>
    rw [applyOp] at happ
    rcases hss : stop_servers s with ⟨s2, acts, r⟩
    rw [hss] at happ
    cases r with
    | error e => exact Option.noConfusion happ
    | ok v =>
      have hs : s2 = s1 := Option.some.inj happ
      rw [← hs]
      obtain ⟨hp, hq⟩ := stopServersLoop_ok_empty (s.server_ports.length + 1) s 0 [] s2 acts hss
      constructor
      · show portsAligned s2.server_ports s2.server_processes
        rw [hp, hq]
        trivial
      · rfl

/-- Witness for C10: stopping port 5002 out of a two-worker registry. -/
theorem registry_pairing_invariant_witness :
    RegistryInv ⟨[⟨0, 11, 5001⟩], [5001], 2⟩
    ∧ stopRemovalCheck ⟨[⟨0, 11, 5001⟩, ⟨1, 12, 5002⟩], [5001, 5002], 2⟩
        (PoolOp.stop 5002) ⟨[⟨0, 11, 5001⟩], [5001], 2⟩ = true :=
  registry_pairing_invariant ⟨[⟨0, 11, 5001⟩, ⟨1, 12, 5002⟩], [5001, 5002], 2⟩
    ⟨[⟨0, 11, 5001⟩], [5001], 2⟩ (PoolOp.stop 5002) (by decide) (by decide)
